import Mathlib

/-!
Verification development for the emmett-rest query-filter language.

The definitions below are a shallow embedding of the compiler found in
`emmett_rest/queries/parser.py`, the validators in
`emmett_rest/queries/validation.py`, the error class in
`emmett_rest/queries/errors.py` and the request pipe in
`emmett_rest/queries/helpers.py`.

Modelling conventions:
* JSON-shaped Python values are the inductive `Value`; Python `dict`s are
  association lists with (tacitly) distinct keys, Python tuples are the
  separate constructor `Value.tup` (the geometry decoder converts lists to
  tuples).
* Python exceptions are the inductive `Exc`; a `Value`-shape assertion
  failure is `Exc.assertionError`, and `Exc.queryError` is the `QueryError`
  class of `errors.py`.  Fallible code returns `Except Exc`.
* Python recursion is modelled with an explicit `fuel` argument; running out
  of fuel is `Exc.recursionError` (the interpreter stack limit).
* The external pyDAL collaborators are modelled syntactically.  A pyDAL
  query is the expression tree `QPred` (one constructor per query-builder
  primitive invoked by `_query_operators`).  `model.table[key]` follows
  pyDAL's `Table.__getitem__`: a falsy key — in particular the `None`
  context of a field-less generic operator — falls through the `elif key:`
  guard and yields the Python value `None`, while a truthy unknown key
  raises `KeyError`.  Because a generic operator can therefore be applied
  to a `None` field, the values flowing through the compiler's condition
  stream are not only queries and `None` but also plain booleans (from
  `None == value` and friends) and integers (from `operator.inv` of a
  bool); the inductive `PyCond` covers all four, and `pyAnd`/`pyOr`/`pyInv`
  give Python's `&`, `|` and `~` on them.  The dataset handle is the tree
  `DBSet`, whose `whereQ` node records each `.where(...)` call together
  with the condition value passed to it.
* Geometry constructors of the external data layer (`emmett.orm.geo`) are
  modelled as accepting their argument tuple unchecked.
-/

/-- A Python/JSON value as it appears in a decoded filter document. -/
inductive Value where
  | null : Value
  | bool (b : Bool) : Value
  | int (i : Int) : Value
  | float (f : Int) : Value
  | str (s : String) : Value
  | datetime (t : Int) : Value
  | list (l : List Value) : Value
  | tup (l : List Value) : Value
  | dict (entries : List (String × Value)) : Value

/-- Python `isinstance(v, dict)`. -/
def Value.isDict : Value → Bool
  | .dict _ => true
  | _ => false

/-- Python `isinstance(v, list)` (tuples are not lists). -/
def Value.isList : Value → Bool
  | .list _ => true
  | _ => false

/-- Python `isinstance(v, bool)`. -/
def Value.isBool : Value → Bool
  | .bool _ => true
  | _ => false

/-- Python `isinstance(v, (int, float, datetime))`.  A Python `bool` is a
subclass of `int`, so booleans pass this check as well. -/
def Value.isOrderable : Value → Bool
  | .int _ => true
  | .float _ => true
  | .datetime _ => true
  | .bool _ => true
  | _ => false

/-- Python truthiness of a value. -/
def truthy : Value → Bool
  | .null => false
  | .bool b => b
  | .int i => i != 0
  | .float f => f != 0
  | .str s => s != ""
  | .datetime _ => true
  | .list l => !l.isEmpty
  | .tup l => !l.isEmpty
  | .dict entries => !entries.isEmpty

/-- A decoded geometry value, as produced by the `emmett.orm.geo` helpers
`Point`, `Line` and `Polygon` applied to the tuplified coordinates. -/
inductive Geom where
  | point (args : List Value) : Geom
  | line (args : List Value) : Geom
  | polygon (args : List Value) : Geom

/-- A value flowing out of an operator validator: either the original
`Value`, a decoded geometry, or the `(geometry, distance)` pair produced by
the `$geo.dwithin` validator. -/
inductive PyVal where
  | v (x : Value) : PyVal
  | geom (g : Geom) : PyVal
  | pair (g : Geom) (d : Value) : PyVal

/-- Python truthiness of a post-validation value (geometry objects and
tuples are truthy). -/
def PyVal.truthyPy : PyVal → Bool
  | .v x => truthy x
  | .geom _ => true
  | .pair _ _ => true

/-- Python `value == None` for a validated operand: true only for `None`
itself (geometry objects and pairs are never `None`). -/
def PyVal.isPyNone : PyVal → Bool
  | .v .null => true
  | _ => false

/-- The compiled predicate expression: a syntactic record of the pyDAL
query-builder calls made by `_query_operators`.  `noneLit`, `boolLit` and
`intLit` stand for the Python `None`, bool and int values that
`Query.__and__`/`__or__` embed unchecked when the compiler combines a
query with a non-query operand. -/
inductive QPred where
  | and (a b : QPred) : QPred
  | or (a b : QPred) : QPred
  | not (a : QPred) : QPred
  | noneLit : QPred
  | boolLit (b : Bool) : QPred
  | intLit (i : Int) : QPred
  | eq (field : String) (v : PyVal) : QPred
  | ne (field : String) (v : PyVal) : QPred
  | lt (field : String) (v : PyVal) : QPred
  | gt (field : String) (v : PyVal) : QPred
  | le (field : String) (v : PyVal) : QPred
  | ge (field : String) (v : PyVal) : QPred
  | belongs (field : String) (v : PyVal) : QPred
  | contains (field : String) (v : PyVal) (caseSensitive : Bool) : QPred
  | like (field : String) (v : PyVal) (caseSensitive : Bool) : QPred
  | stContains (field : String) (v : PyVal) : QPred
  | stEquals (field : String) (v : PyVal) : QPred
  | stIntersects (field : String) (v : PyVal) : QPred
  | stOverlaps (field : String) (v : PyVal) : QPred
  | stTouches (field : String) (v : PyVal) : QPred
  | stWithin (field : String) (v : PyVal) : QPred
  | stDwithin (field : String) (g d : PyVal) : QPred

/-- A Python value in the compiler's condition stream: the `None` of an
empty aggregation, a plain bool (a field-less `$eq`/`$ne`/`$exists`
evaluates `None == value` and friends to a bool), a plain int (Python's
`~bool` and `~int` are integer complement), or a pyDAL query. -/
inductive PyCond where
  | pynone : PyCond
  | pybool (b : Bool) : PyCond
  | pyint (i : Int) : PyCond
  | query (p : QPred) : PyCond

/-- Python truthiness of a condition-stream value (queries are truthy). -/
def truthyCond : PyCond → Bool
  | .pynone => false
  | .pybool b => b
  | .pyint i => i != 0
  | .query _ => true

/-- Embedding of a condition value as a query operand: pyDAL's
`Query.__and__`/`__or__` store their second operand without type-checking
it. -/
def embedCond : PyCond → QPred
  | .query p => p
  | .pynone => .noneLit
  | .pybool b => .boolLit b
  | .pyint i => .intLit i

/-- Python exceptions raised along the compile path. -/
inductive Exc where
  | queryError (op : String) (value : Value) : Exc
  | assertionError : Exc
  | keyError (key : String) : Exc
  | attrError (name : String) : Exc
  | typeError (msg : String) : Exc
  | recursionError : Exc

/-- Python `operator.and_` on condition values.  A query on the left embeds
any second operand into a new query node (`Query.__and__` does not check
its argument); bools and ints combine bitwise (a bool coerces to 0/1); a
`None`, bool or int on the left of a query raises `TypeError`, since the
built-in `__and__` returns `NotImplemented` and pyDAL queries define no
`__rand__`.  (CPython's message additionally names the operand types.) -/
def pyAnd : PyCond → PyCond → Except Exc PyCond
  | .query p, c => .ok (.query (.and p (embedCond c)))
  | .pybool a, .pybool b => .ok (.pybool (a && b))
  | .pybool a, .pyint i => .ok (.pyint (Int.land (if a then 1 else 0) i))
  | .pyint i, .pybool b => .ok (.pyint (Int.land i (if b then 1 else 0)))
  | .pyint i, .pyint j => .ok (.pyint (Int.land i j))
  | _, _ => .error (.typeError "unsupported operand type\x28s\x29 for &")

/-- Python `operator.or_` on condition values, mirroring `pyAnd`. -/
def pyOr : PyCond → PyCond → Except Exc PyCond
  | .query p, c => .ok (.query (.or p (embedCond c)))
  | .pybool a, .pybool b => .ok (.pybool (a || b))
  | .pybool a, .pyint i => .ok (.pyint (Int.lor (if a then 1 else 0) i))
  | .pyint i, .pybool b => .ok (.pyint (Int.lor i (if b then 1 else 0)))
  | .pyint i, .pyint j => .ok (.pyint (Int.lor i j))
  | _, _ => .error (.typeError "unsupported operand type\x28s\x29 for |")

/-- Python `operator.inv` on a condition value: `~query` is the pyDAL
negation node, `~bool` and `~int` are integer complement, and `~None`
raises a `TypeError`. -/
def pyInv : PyCond → Except Exc PyCond
  | .query p => .ok (.query (.not p))
  | .pybool b => .ok (.pyint (if b then -2 else -1))
  | .pyint i => .ok (.pyint (-(i + 1)))
  | .pynone => .error (.typeError "bad operand type for unary ~: \x27NoneType\x27")

/-- Python `repr` of a value, as interpolated by `QueryError.gen_msg` via
`"Invalid {} condition: {!r}"`.  String escaping inside `repr` and the
`repr` of floats and datetimes are approximated (no claim evaluates those). -/
def pyRepr : Value → String
  | .null => "None"
  | .bool true => "True"
  | .bool false => "False"
  | .int i => toString i
  | .float f => toString f ++ ".0"
  | .str s => "\x27" ++ s ++ "\x27"
  | .datetime t => "datetime\x28" ++ toString t ++ "\x29"
  | .list l => "[" ++ String.intercalate ", " (pyReprList l) ++ "]"
  | .tup [] => "\x28\x29"
  | .tup [x] => "\x28" ++ pyRepr x ++ ",\x29"
  | .tup l => "\x28" ++ String.intercalate ", " (pyReprList l) ++ "\x29"
  | .dict entries => "\x7b" ++ String.intercalate ", " (pyReprEntries entries) ++ "\x7d"
where
  /-- `repr` of each element of a Python list. -/
  pyReprList : List Value → List String
    | [] => []
    | x :: rest => pyRepr x :: pyReprList rest
  /-- `repr` of each `key: value` entry of a Python dict. -/
  pyReprEntries : List (String × Value) → List String
    | [] => []
    | (k, v) :: rest => ("\x27" ++ k ++ "\x27: " ++ pyRepr v) :: pyReprEntries rest

/-- `QueryError.gen_msg` from `errors.py`:
`"Invalid {} condition: {!r}".format(self.op, self.value)`. -/
def genMsg (op : String) (value : Value) : String :=
  "Invalid " ++ op ++ " condition: " ++ pyRepr value

/-- First-match lookup in a Python dict modelled as an association list. -/
def dictGet : List (String × Value) → String → Option Value
  | [], _ => none
  | (k, v) :: rest, key => if k == key then some v else dictGet rest key

/-- Python `set(entries.keys()) == set(req)` for an association list. -/
def keySetEq (entries : List (String × Value)) (req : List String) : Bool :=
  req.all (fun k => (entries.map Prod.fst).contains k) &&
    (entries.map Prod.fst).all (fun k => req.contains k)

mutual

/-- One element of `_tuplify_list`: a list element becomes a tuple,
anything else is kept. -/
def tuplifyVal : Value → Value
  | .list l => .tup (tuplifyList l)
  | x => x

/-- `_tuplify_list` from `validation.py`: recursively convert nested lists
into tuples, leaving other elements unchanged. -/
def tuplifyList : List Value → List Value
  | [] => []
  | el :: rest => tuplifyVal el :: tuplifyList rest

end

/-- The `_geo_helpers` table from `validation.py`, keyed by the upper-cased
`type` string; each helper is applied to the splatted tuplified coordinates. -/
def geoHelpers : String → Option (List Value → Geom)
  | "POINT" => some Geom.point
  | "LINE" => some Geom.line
  | "LINESTRING" => some Geom.line
  | "POLYGON" => some Geom.polygon
  | _ => none

/-- Python `str.upper()`, restricted to ASCII (the geometry kind tokens the
decoder compares against are plain ASCII). -/
def pyUpper (s : String) : String :=
  String.mk (s.data.map Char.toUpper)

/-- `validate_glue` from `validation.py`: the value must be a list whose
every element is a dict.  (Registered for `$and`/`$or` in `op_validators`,
but note that `_glue_op_parser` never invokes it.) -/
def validateGlue (v : Value) : Except Exc Value :=
  match v with
  | .list vs => if vs.all Value.isDict then .ok (.list vs) else .error .assertionError
  | _ => .error .assertionError

/-- `validate_geo` from `validation.py`.  A non-dict value or a wrong key
set fails the assertion; a non-string `type` raises an `AttributeError`
from `objkey.upper()` (which the generic parser does not catch); an unknown
geometry kind or non-list coordinates fail the assertion. -/
def validateGeo (v : Value) : Except Exc Geom :=
  match v with
  | .dict entries =>
    if keySetEq entries ["type", "coordinates"] then
      match dictGet entries "type" with
      | some (.str s) =>
        match geoHelpers (pyUpper s) with
        | some mk =>
          match dictGet entries "coordinates" with
          | some (.list coords) => .ok (mk (tuplifyList coords))
          | _ => .error .assertionError
        | none => .error .assertionError
      | some _ => .error (.attrError "upper")
      | none => .error (.keyError "type")
    else .error .assertionError
  | _ => .error .assertionError

/-- `validate_geo_dwithin` from `validation.py`: a dict with exactly the
keys `geometry` and `distance`, a truthy distance, and a decodable
geometry; the result is the `(geometry, distance)` pair. -/
def validateGeoDwithin (v : Value) : Except Exc PyVal :=
  match v with
  | .dict entries =>
    if keySetEq entries ["geometry", "distance"] then
      match dictGet entries "distance" with
      | some dist =>
        if truthy dist then
          match dictGet entries "geometry" with
          | some g =>
            match validateGeo g with
            | .ok ge => .ok (.pair ge dist)
            | .error e => .error e
          | none => .error (.keyError "geometry")
        else .error .assertionError
      | none => .error (.keyError "distance")
    else .error .assertionError
  | _ => .error .assertionError

/-- The keys of the `op_validators` table from `validation.py`, in source
order.  This is the compiler's operator vocabulary: `_conditions_parser`
builds `op_set` from these keys.  (`$contains` and `$icontains` appear in
`_query_operators` but not here, so they are never dispatched.) -/
def opSet : List String :=
  ["$and", "$or", "$eq", "$not", "$ne", "$in", "$nin",
   "$lt", "$gt", "$le", "$ge", "$lte", "$gte",
   "$exists", "$like", "$ilike", "$regex", "$iregex",
   "$geo.contains", "$geo.equals", "$geo.intersects", "$geo.overlaps",
   "$geo.touches", "$geo.within", "$geo.dwithin"]

/-- `op_validators[key](value)`: dispatch to the per-operator validator.
An `AssertionError` is reported as `Exc.assertionError`; other exceptions
pass through.  The catch-all is unreachable, since callers only dispatch
keys of `opSet`. -/
def opValidate (key : String) (v : Value) : Except Exc PyVal :=
  match key with
  | "$and" | "$or" =>
    (match validateGlue v with
     | .ok x => .ok (.v x)
     | .error e => .error e)
  | "$eq" | "$ne" | "$like" | "$ilike" | "$regex" | "$iregex" => .ok (.v v)
  | "$not" => if v.isDict then .ok (.v v) else .error .assertionError
  | "$in" | "$nin" => if v.isList then .ok (.v v) else .error .assertionError
  | "$lt" | "$gt" | "$le" | "$ge" | "$lte" | "$gte" =>
    if v.isOrderable then .ok (.v v) else .error .assertionError
  | "$exists" => if v.isBool then .ok (.v v) else .error .assertionError
  | "$geo.contains" | "$geo.equals" | "$geo.intersects" | "$geo.overlaps"
  | "$geo.touches" | "$geo.within" =>
    (match validateGeo v with
     | .ok g => .ok (.geom g)
     | .error e => .error e)
  | "$geo.dwithin" => validateGeoDwithin v
  | _ => .error (.keyError key)

/-- The external model: its table resolves the listed field names. -/
structure DBModel where
  fields : List String

/-- `ctx.model.table[ctx.parent]` via pyDAL's `Table.__getitem__`: a falsy
key — the `None` context of a top-level generic operator, or the empty
string — falls through the `elif key:` guard and the method returns the
Python value `None` (modelled as `.ok none`); a truthy key resolves to the
field handle when it names a field of the table and raises `KeyError`
otherwise.  (The method's digit-string branch, which selects a record by
id, is not reachable from operator tokens or field names.) -/
def tableField (m : DBModel) (parent : Option String) : Except Exc (Option String) :=
  match parent with
  | none => .ok none
  | some k =>
    if k == "" then .ok none
    else if m.fields.contains k then .ok (some k)
    else .error (.keyError k)

/-- Message of the `TypeError` Python raises when ordering a `None` field
against a value (CPython's text also names the operator symbol and the
operand type; no claim evaluates it). -/
def ordNoneMsg : String :=
  "comparison not supported between instances of \x27NoneType\x27 and the operand"

/-- `_query_operators[key]` for the field-level (generic) operators of
`parser.py`: each entry is the query-builder call made by the stored
lambda, applied to the resolved field — which, for a falsy parent context,
is the Python value `None`.  With a `None` field, `$eq`/`$ne` evaluate the
plain comparison against `None` to a bool, `$exists` likewise, the
ordering operators raise `TypeError`, and the methodcaller-based operators
raise `AttributeError` for the missing method on `None`.  `$and`, `$or`
and `$not` also live in the source table but are only ever invoked through
the glue/negation parsers, which `op_parsers` installs over them, so they
are omitted here.  Note the absence of `$nin`: the source table has no
such key, so the lookup raises `KeyError` for it. -/
def lookupQueryOp (key : String) :
    Option (Option String → PyVal → Except Exc PyCond) :=
  match key with
  | "$eq" => some (fun f v =>
      match f with
      | some fld => .ok (.query (.eq fld v))
      | none => .ok (.pybool v.isPyNone))
  | "$ne" => some (fun f v =>
      match f with
      | some fld => .ok (.query (.ne fld v))
      | none => .ok (.pybool (!v.isPyNone)))
  | "$lt" => some (fun f v =>
      match f with
      | some fld => .ok (.query (.lt fld v))
      | none => .error (.typeError ordNoneMsg))
  | "$gt" => some (fun f v =>
      match f with
      | some fld => .ok (.query (.gt fld v))
      | none => .error (.typeError ordNoneMsg))
  | "$le" => some (fun f v =>
      match f with
      | some fld => .ok (.query (.le fld v))
      | none => .error (.typeError ordNoneMsg))
  | "$ge" => some (fun f v =>
      match f with
      | some fld => .ok (.query (.ge fld v))
      | none => .error (.typeError ordNoneMsg))
  | "$lte" => some (fun f v =>
      match f with
      | some fld => .ok (.query (.le fld v))
      | none => .error (.typeError ordNoneMsg))
  | "$gte" => some (fun f v =>
      match f with
      | some fld => .ok (.query (.ge fld v))
      | none => .error (.typeError ordNoneMsg))
  | "$in" => some (fun f v =>
      match f with
      | some fld => .ok (.query (.belongs fld v))
      | none => .error (.attrError "belongs"))
  | "$exists" => some (fun f v =>
      match f with
      | some fld =>
        .ok (.query (if v.truthyPy then .ne fld (.v .null) else .eq fld (.v .null)))
      | none => .ok (.pybool (!v.truthyPy)))
  | "$contains" => some (fun f v =>
      match f with
      | some fld => .ok (.query (.contains fld v true))
      | none => .error (.attrError "contains"))
  | "$icontains" => some (fun f v =>
      match f with
      | some fld => .ok (.query (.contains fld v false))
      | none => .error (.attrError "contains"))
  | "$like" => some (fun f v =>
      match f with
      | some fld => .ok (.query (.like fld v true))
      | none => .error (.attrError "like"))
  | "$ilike" => some (fun f v =>
      match f with
      | some fld => .ok (.query (.like fld v false))
      | none => .error (.attrError "like"))
  | "$regex" => some (fun f v =>
      match f with
      | some fld => .ok (.query (.contains fld v true))
      | none => .error (.attrError "contains"))
  | "$iregex" => some (fun f v =>
      match f with
      | some fld => .ok (.query (.contains fld v false))
      | none => .error (.attrError "contains"))
  | "$geo.contains" => some (fun f v =>
      match f with
      | some fld => .ok (.query (.stContains fld v))
      | none => .error (.attrError "st_contains"))
  | "$geo.equals" => some (fun f v =>
      match f with
      | some fld => .ok (.query (.stEquals fld v))
      | none => .error (.attrError "st_equals"))
  | "$geo.intersects" => some (fun f v =>
      match f with
      | some fld => .ok (.query (.stIntersects fld v))
      | none => .error (.attrError "st_intersects"))
  | "$geo.overlaps" => some (fun f v =>
      match f with
      | some fld => .ok (.query (.stOverlaps fld v))
      | none => .error (.attrError "st_overlaps"))
  | "$geo.touches" => some (fun f v =>
      match f with
      | some fld => .ok (.query (.stTouches fld v))
      | none => .error (.attrError "st_touches"))
  | "$geo.within" => some (fun f v =>
      match f with
      | some fld => .ok (.query (.stWithin fld v))
      | none => .error (.attrError "st_within"))
  | "$geo.dwithin" => some (fun f v =>
      match v with
      | .pair g d =>
        (match f with
         | some fld => .ok (.query (.stDwithin fld (.geom g) (.v d)))
         | none => .error (.attrError "st_dwithin"))
      | _ => .error (.typeError "object is not subscriptable"))
  | _ => none

/-- `_generic_op_parser` from `parser.py`: run the operator validator
(an `AssertionError` becomes `QueryError(op=key, value=value)` with the
original value), then look up `_query_operators[key]` (a `KeyError`
propagates), then resolve the field context, then apply the operator.
For `$geo.dwithin`, `methodcaller` evaluates the subscripts `value[0]`
and `value[1]` before touching the field, matching the source order.
The stored lambdas never raise `AssertionError`, so no further catch is
modelled around the application. -/
def genericOpParser (m : DBModel) (parent : Option String) (key : String)
    (value : Value) : Except Exc PyCond :=
  match opValidate key value with
  | .error .assertionError => .error (.queryError key value)
  | .error e => .error e
  | .ok validated =>
    match lookupQueryOp key with
    | none => .error (.keyError key)
    | some op =>
      match tableField m parent with
      | .error e => .error e
      | .ok field => op field validated

/-- `_query_operators[key]` for the glue keys: `operator.and_` for `$and`
and `operator.or_` for `$or`. -/
def pyGlue (key : String) : PyCond → PyCond → Except Exc PyCond :=
  if key == "$and" then pyAnd else pyOr

/-- The running fold of Python
`reduce(lambda a, b: op(a, b) if a and b else None, conds)` once the first
element has seeded the accumulator: a falsy operand on either side makes
the step yield `None`, otherwise the combinator runs (and may raise). -/
def reduceCombine (f : PyCond → PyCond → Except Exc PyCond) :
    PyCond → List PyCond → Except Exc PyCond
  | acc, [] => .ok acc
  | acc, b :: rest =>
    if truthyCond acc && truthyCond b then
      match f acc b with
      | .error e => .error e
      | .ok c => reduceCombine f c rest
    else reduceCombine f .pynone rest

/-- The pairwise reduction of `_glue_op_parser`: `reduce` with the glue
combinator.  Python's `reduce` raises a `TypeError` on an empty sequence. -/
def reduceGlue (key : String) : List PyCond → Except Exc PyCond
  | [] => .error (.typeError "reduce\x28\x29 of empty iterable with no initial value")
  | c :: cs => reduceCombine (pyGlue key) c cs

/-- The pairwise reduction used twice by `_conditions_parser`:
`reduce(lambda a, b: operator.and_(a, b) if a and b else None, conds)`.
Both call sites guard against the empty list (`if step_conditions:` and
`if inner_conditions:`), so the empty case here is unreachable. -/
def reduceConds : List PyCond → Except Exc PyCond
  | [] => .ok .pynone
  | c :: cs => reduceCombine pyAnd c cs

/-- `_glue_op_parser` on the elements of its list: compile each element as
a sub-document with the glue key as parent.  A non-dict element makes the
recursive `_conditions_parser` call fail (it accesses `.keys()` on the
element), exactly as in the source, where `validate_glue` is never run. -/
def glueConds (recur : Value → Option String → Except Exc PyCond)
    (key : String) : List Value → Except Exc (List PyCond)
  | [] => .ok []
  | v :: rest =>
    match recur v (some key) with
    | .error e => .error e
    | .ok c =>
      match glueConds recur key rest with
      | .error e => .error e
      | .ok cs => .ok (c :: cs)

/-- `_glue_op_parser` from `parser.py`: a non-list value raises
`QueryError`; otherwise every element is compiled and the results are
reduced pairwise with the glue combinator. -/
def glueOpParser (recur : Value → Option String → Except Exc PyCond)
    (key : String) (value : Value) : Except Exc PyCond :=
  match value with
  | .list vs =>
    match glueConds recur key vs with
    | .error e => .error e
    | .ok conds => reduceGlue key conds
  | _ => .error (.queryError key value)

/-- `_dict_op_parser` from `parser.py` (the `$not` parser): a non-dict
value raises `QueryError`; otherwise the inner document is compiled and
`operator.inv` is applied to the result — in particular a `None` inner
result makes `~None` raise a `TypeError`. -/
def dictOpParser (recur : Value → Option String → Except Exc PyCond)
    (key : String) (value : Value) : Except Exc PyCond :=
  match value with
  | .dict _ =>
    (match recur value (some key) with
     | .error e => .error e
     | .ok inner => pyInv inner)
  | _ => .error (.queryError key value)

/-- `op_parsers` from `parser.py`: the generic parser for every validator
key, overridden by the glue parser for `$or`/`$and` and the negation
parser for `$not`. -/
def opParserDispatch (recur : Value → Option String → Except Exc PyCond)
    (m : DBModel) (parent : Option String) (key : String) (value : Value) :
    Except Exc PyCond :=
  if key == "$or" || key == "$and" then glueOpParser recur key value
  else if key == "$not" then dictOpParser recur key value
  else genericOpParser m parent key value

/-- The first loop of `_conditions_parser`: run the operator parser on
every operator key of the document, collecting the results (an exception
aborts the whole compile). -/
def opConds (f : String → Value → Except Exc PyCond) :
    List (String × Value) → Except Exc (List PyCond)
  | [] => .ok []
  | (k, v) :: rest =>
    match f k v with
    | .error e => .error e
    | .ok c =>
      match opConds f rest with
      | .error e => .error e
      | .ok cs => .ok (c :: cs)

/-- The second loop of `_conditions_parser`: for every accepted field key,
normalize a non-dict value to the `{'$eq': value}` shorthand and compile it
as a sub-document with the field as parent. -/
def fieldConds (recur : Value → Option String → Except Exc PyCond) :
    List (String × Value) → Except Exc (List PyCond)
  | [] => .ok []
  | (k, v) :: rest =>
    match recur (match v with | .dict entries => .dict entries | x => .dict [("$eq", x)])
        (some k) with
    | .error e => .error e
    | .ok c =>
      match fieldConds recur rest with
      | .error e => .error e
      | .ok cs => .ok (c :: cs)

/-- One level of `_conditions_parser` from `parser.py`, with `recur`
standing for the recursive call.  A non-dict document fails when its keys
are taken (`set(query_dict.keys())`).  Operator keys and accepted field
keys are visited in document order (the source iterates the corresponding
Python set intersections, whose order is irrelevant to it).  After the
operator loop `query` is still `None`, so
`query = query & step_query if query else step_query` sets it to the
reduced step query; the field aggregate is then combined with
`query & inner_query if query else inner_query`, whose `&` on a truthy
`query` may itself raise. -/
def condParserStep (recur : Value → Option String → Except Exc PyCond)
    (m : DBModel) (accepted : List String) (queryDict : Value)
    (parent : Option String) : Except Exc PyCond :=
  match queryDict with
  | .dict qd =>
    match opConds (fun k v => opParserDispatch recur m parent k v)
        (qd.filter (fun kv => opSet.contains kv.1)) with
    | .error e => .error e
    | .ok stepConditions =>
      match (if stepConditions.isEmpty then .ok .pynone
             else reduceConds stepConditions) with
      | .error e => .error e
      | .ok query =>
        match fieldConds recur (qd.filter (fun kv => accepted.contains kv.1)) with
        | .error e => .error e
        | .ok innerConditions =>
          if innerConditions.isEmpty then .ok query
          else
            match reduceConds innerConditions with
            | .error e => .error e
            | .ok innerQuery =>
              if truthyCond query then pyAnd query innerQuery else .ok innerQuery
  | _ => .error (.attrError "keys")

/-- `_conditions_parser` from `parser.py`, with an explicit recursion
budget.  `conditionsParser fuel m accepted query_dict parent` compiles a
filter document into a condition value (a query, or `None` when nothing
contributed, or a plain bool or int from the field-less degenerate cases)
or an exception. -/
def conditionsParser : Nat → DBModel → List String → Value → Option String →
    Except Exc PyCond
  | 0, _, _, _, _ => .error .recursionError
  | fuel + 1, m, accepted, queryDict, parent =>
    condParserStep (conditionsParser fuel m accepted) m accepted queryDict parent

/-- The dataset handle of the external data layer, recording each
`.where(...)` call syntactically together with the condition value passed
to it. -/
inductive DBSet where
  | base (id : Nat) : DBSet
  | whereQ (s : DBSet) (q : PyCond) : DBSet

/-- `parse_conditions` from `parser.py` (the public, scoped entry point):
compile the document with no parent context and attach the result to the
dataset handle with `.where(...)` — unconditionally, also when the
compiled condition is `None`. -/
def parseConditions (fuel : Nat) (m : DBModel) (dbset : DBSet)
    (queryDict : Value) (accepted : List String) : Except Exc DBSet :=
  match conditionsParser fuel m accepted queryDict none with
  | .ok q => .ok (.whereQ dbset q)
  | .error e => .error e

/-- The module-level configuration consumed by `JSONQueryPipe`:
the filter parameter name and `mod._queryable_fields` (from which
`set_accepted` builds the accepted set). -/
structure PipeConfig where
  queryParam : String
  queryableFields : List String

/-- Outcome of `JSONQueryPipe.pipe_request`: the downstream pipe is invoked
with a dataset handle, or a 400 error response keyed on the parameter name
is returned, or an uncaught exception escapes. -/
inductive PipeResult where
  | forwarded (dbset : DBSet) : PipeResult
  | badRequest (key msg : String) : PipeResult
  | crashed (e : Exc) : PipeResult

/-- Python truthiness of `request.query_params[param]`: missing parameters
read as `None`, and the empty string is falsy. -/
def truthyParam : Option String → Bool
  | none => false
  | some s => s != ""

/-- `JSONQueryPipe._parse_where_param`: an empty string yields `{}`;
otherwise the string is JSON-decoded (the decoder is the external
`Parsers.get_for('json')`, supplied here as a function) and the result must
be a dict; any failure raises `ValueError`. -/
def parseWhereParam (decode : String → Option Value) (param : String) :
    Except Unit Value :=
  if param == "" then .ok (.dict [])
  else
    match decode param with
    | none => .error ()
    | some v => if v.isDict then .ok v else .error ()

/-- `JSONQueryPipe.pipe_request` from `helpers.py`: with a truthy filter
parameter and a non-empty accepted set, decode the parameter (a
`ValueError` yields a 400 "invalid value" response), compile and attach the
conditions (a `QueryError` yields a 400 response carrying `gen_msg()`,
any other exception escapes), and forward the resulting dataset handle;
otherwise forward the inbound handle untouched. -/
def pipeRequest (fuel : Nat) (m : DBModel) (cfg : PipeConfig)
    (raw : Option String) (decode : String → Option Value) (dbset : DBSet) :
    PipeResult :=
  if truthyParam raw && !cfg.queryableFields.isEmpty then
    match parseWhereParam decode (raw.getD "") with
    | .error _ => .badRequest cfg.queryParam "invalid value"
    | .ok inputCondition =>
      match parseConditions fuel m dbset inputCondition cfg.queryableFields with
      | .ok newDbset => .forwarded newDbset
      | .error (.queryError op value) => .badRequest cfg.queryParam (genMsg op value)
      | .error e => .crashed e
  else .forwarded dbset

/-- Documents whose top-level keys avoid the field-level (generic)
operator tokens: every key is either not an operator token at all, or one
of the glue/negation tokens, whose parsers ignore the field context. -/
def noGenericTopKeys (d : List (String × Value)) : Bool :=
  d.all (fun kv => !(opSet.contains kv.1) ||
    (kv.1 == "$and" || kv.1 == "$or" || kv.1 == "$not"))

/-- View an optional predicate as a condition-stream value (`None` or a
query) — the only shapes the aggregation sentence of the spec speaks
about. -/
def condOfOpt : Option QPred → PyCond
  | some p => .query p
  | none => .pynone

/-! ### Helper lemmas -/

/-- An operator key of the glue/negation kind is dispatched to a parser
that ignores the field context. -/
theorem opParserDispatch_parent_eq (recur : Value → Option String → Except Exc PyCond)
    (m : DBModel) (p q : Option String) (k : String) (v : Value)
    (h : (k == "$and" || k == "$or" || k == "$not") = true) :
    opParserDispatch recur m p k v = opParserDispatch recur m q k v := by
  unfold opParserDispatch
  by_cases h1 : (k == "$or" || k == "$and") = true
  · simp only [if_pos h1]
  · have h2 : (k == "$not") = true := by
      simp only [Bool.or_eq_true] at h h1
      tauto
    simp only [if_neg h1, if_pos h2]

/-- Lifting `opParserDispatch_parent_eq` over the operator-key loop. -/
theorem opConds_parent_eq (recur : Value → Option String → Except Exc PyCond)
    (m : DBModel) (p q : Option String) :
    ∀ (l : List (String × Value)),
    (∀ kv ∈ l, (kv.1 == "$and" || kv.1 == "$or" || kv.1 == "$not") = true) →
    opConds (fun k v => opParserDispatch recur m p k v) l =
    opConds (fun k v => opParserDispatch recur m q k v) l := by
  intro l
  induction l with
  | nil => intro _; rfl
  | cons kv rest ih =>
    intro h
    obtain ⟨k, v⟩ := kv
    unfold opConds
    rw [opParserDispatch_parent_eq recur m p q k v (h (k, v) (List.mem_cons_self _ _))]
    rw [ih (fun kv hkv => h kv (List.mem_cons_of_mem _ hkv))]

/-- A document whose top-level keys avoid the generic operator tokens
compiles identically under every field context: the glue and negation
parsers reset the context themselves, field keys set it to the field, and
unknown keys are dropped. -/
theorem conditionsParser_parent_eq (fuel : Nat) (m : DBModel) (acc : List String)
    (da : List (String × Value)) (p q : Option String)
    (h : noGenericTopKeys da = true) :
    conditionsParser fuel m acc (.dict da) p =
      conditionsParser fuel m acc (.dict da) q := by
  cases fuel with
  | zero => rfl
  | succ fuel =>
    simp only [conditionsParser, condParserStep]
    have hk : ∀ kv ∈ da.filter (fun kv => opSet.contains kv.1),
        (kv.1 == "$and" || kv.1 == "$or" || kv.1 == "$not") = true := by
      intro kv hkv
      obtain ⟨hmem, h1⟩ := List.mem_filter.mp hkv
      have h2 := (List.all_eq_true.mp h) kv hmem
      simp only [h1, Bool.not_true, Bool.false_or] at h2
      exact h2
    rw [opConds_parent_eq (conditionsParser fuel m acc) m p q
      (da.filter (fun kv => opSet.contains kv.1)) hk]

/-- Folding the step-condition combinator from a `None` accumulator stays
`None` forever. -/
theorem reduceCombine_pynone (cs : List PyCond) :
    reduceCombine pyAnd .pynone cs = .ok .pynone := by
  induction cs with
  | nil => rfl
  | cons b rest ih => simpa [reduceCombine, truthyCond] using ih

/-- Folding the step-condition combinator over `None`-or-query conditions
that include a `None` yields `None`, for every `None`-or-query
accumulator. -/
theorem reduceCombine_mem_none :
    ∀ (cs : List (Option QPred)) (acc : PyCond),
      (acc = .pynone ∨ ∃ p, acc = .query p) → none ∈ cs →
      reduceCombine pyAnd acc (cs.map condOfOpt) = .ok .pynone := by
  intro cs
  induction cs with
  | nil => intro acc _ h; cases h
  | cons b rest ih =>
    intro acc hacc hmem
    rcases List.mem_cons.mp hmem with hb | hrest
    · simp [List.map, ← hb, condOfOpt, reduceCombine, truthyCond, reduceCombine_pynone]
    · cases b with
      | none => simp [List.map, condOfOpt, reduceCombine, truthyCond, reduceCombine_pynone]
      | some q =>
        rcases hacc with h0 | ⟨pp, h0⟩
        · subst h0
          simp [List.map, condOfOpt, reduceCombine, truthyCond, reduceCombine_pynone]
        · subst h0
          simp only [List.map, condOfOpt, reduceCombine, truthyCond, Bool.and_self,
            if_pos, pyAnd, embedCond]
          exact ih (.query (pp.and q)) (Or.inr ⟨pp.and q, rfl⟩) hrest

/-- Folding the step-condition combinator over queries only is the left
AND-fold of the underlying predicates. -/
theorem reduceCombine_all_query :
    ∀ (ps : List QPred) (p : QPred),
      reduceCombine pyAnd (.query p) (ps.map PyCond.query) =
        .ok (.query (ps.foldl QPred.and p)) := by
  intro ps
  induction ps with
  | nil => intro p; rfl
  | cons q rest ih =>
    intro p
    simpa [List.map, reduceCombine, truthyCond, pyAnd, embedCond, List.foldl]
      using ih (p.and q)

/-! ### Claims -/

/-- C1 (counterexample): compiling a glue document is not always the
AND/OR of the independent compiles.  The sub-document
`{"$eq": 1, "f": 1}` compiles on its own to the predicate `f == 1` — its
field-less `$eq` resolves `table[None]` to Python `None`, evaluates
`None == 1` to the bool `False`, and the falsy step aggregate is then
discarded — and `{"f": 2}` compiles to `f == 2`; but wrapping the two in
`{"$and": [...]}` (or `{"$or": [...]}`) compiles the elements with the glue
token as field context, where `table["$and"]` raises `KeyError`, so the
glue compile crashes instead of producing the conjunction. -/
theorem glue_context_counterexample :
    conditionsParser 2 ⟨["f"]⟩ ["f"] (.dict [("$eq", .int 1), ("f", .int 1)]) none =
      .ok (.query (.eq "f" (.v (.int 1)))) ∧
    conditionsParser 2 ⟨["f"]⟩ ["f"] (.dict [("f", .int 2)]) none =
      .ok (.query (.eq "f" (.v (.int 2)))) ∧
    conditionsParser 3 ⟨["f"]⟩ ["f"]
        (.dict [("$and",
          .list [.dict [("$eq", .int 1), ("f", .int 1)], .dict [("f", .int 2)]])]) none =
      .error (.keyError "$and") ∧
    conditionsParser 3 ⟨["f"]⟩ ["f"]
        (.dict [("$or",
          .list [.dict [("$eq", .int 1), ("f", .int 1)], .dict [("f", .int 2)]])]) none =
      .error (.keyError "$or") := ⟨rfl, rfl, rfl, rfl⟩

/-- C1 (amended): for sub-documents `a` and `b` whose top-level keys
contain no field-level (generic) operator token — the shapes whose compile
never consults the field context — if each compiles to a predicate under
the same allowed-field set, then compiling `{"$and": [a, b]}` yields the
logical AND of the two independently compiled predicates, and
`{"$or": [a, b]}` their logical OR.  The glue tokens themselves are
assumed not to be allowed field names (they are operator tokens, not
fields). -/
theorem glue_ops_compose_no_generic (fuel : Nat) (m : DBModel) (acc : List String)
    (da db : List (String × Value)) (pa pb : QPred)
    (hA : acc.contains "$and" = false) (hO : acc.contains "$or" = false)
    (hga : noGenericTopKeys da = true) (hgb : noGenericTopKeys db = true)
    (ha : conditionsParser fuel m acc (.dict da) none = .ok (.query pa))
    (hb : conditionsParser fuel m acc (.dict db) none = .ok (.query pb)) :
    conditionsParser (fuel + 1) m acc
        (.dict [("$and", .list [.dict da, .dict db])]) none =
      .ok (.query (.and pa pb)) ∧
    conditionsParser (fuel + 1) m acc
        (.dict [("$or", .list [.dict da, .dict db])]) none =
      .ok (.query (.or pa pb)) := by
  have ha2 : conditionsParser fuel m acc (.dict da) (some "$and") = .ok (.query pa) := by
    rw [conditionsParser_parent_eq fuel m acc da (some "$and") none hga]; exact ha
  have hb2 : conditionsParser fuel m acc (.dict db) (some "$and") = .ok (.query pb) := by
    rw [conditionsParser_parent_eq fuel m acc db (some "$and") none hgb]; exact hb
  have ha3 : conditionsParser fuel m acc (.dict da) (some "$or") = .ok (.query pa) := by
    rw [conditionsParser_parent_eq fuel m acc da (some "$or") none hga]; exact ha
  have hb3 : conditionsParser fuel m acc (.dict db) (some "$or") = .ok (.query pb) := by
    rw [conditionsParser_parent_eq fuel m acc db (some "$or") none hgb]; exact hb
  constructor
  · simp only [conditionsParser, condParserStep, List.filter, opSet, List.contains,
      opConds, opParserDispatch, glueOpParser, glueConds, reduceGlue, pyGlue,
      reduceCombine, pyAnd, embedCond, truthyCond, fieldConds, reduceConds,
      hA, ha2, hb2]
    simp [pyAnd, embedCond, reduceCombine]
  · simp only [conditionsParser, condParserStep, List.filter, opSet, List.contains,
      opConds, opParserDispatch, glueOpParser, glueConds, reduceGlue, pyGlue,
      reduceCombine, pyAnd, pyOr, embedCond, truthyCond, fieldConds, reduceConds,
      hO, ha3, hb3]
    simp [pyOr, embedCond, reduceCombine]

/-- Witness for the amended C1 at the concrete documents `a = {"f": 1}`,
`b = {"g": 2}` with allowed fields `f` and `g`. -/
theorem glue_ops_compose_no_generic_witness :
    conditionsParser 3 ⟨["f", "g"]⟩ ["f", "g"]
        (.dict [("$and", .list [.dict [("f", .int 1)], .dict [("g", .int 2)]])]) none =
      .ok (.query (.and (.eq "f" (.v (.int 1))) (.eq "g" (.v (.int 2))))) ∧
    conditionsParser 3 ⟨["f", "g"]⟩ ["f", "g"]
        (.dict [("$or", .list [.dict [("f", .int 1)], .dict [("g", .int 2)]])]) none =
      .ok (.query (.or (.eq "f" (.v (.int 1))) (.eq "g" (.v (.int 2))))) :=
  glue_ops_compose_no_generic 2 ⟨["f", "g"]⟩ ["f", "g"]
    [("f", .int 1)] [("g", .int 2)]
    (.eq "f" (.v (.int 1))) (.eq "g" (.v (.int 2)))
    rfl rfl rfl rfl rfl rfl

/-- C7: for a field `f` in the allowed set (a field name, not an operator
token) and a non-dict (scalar) value `v`, compiling `{f: v}` produces the
same result as compiling `{f: {"$eq": v}}` — the compiler normalizes the
scalar shorthand to exactly that document before recursing. -/
theorem scalar_eq_shorthand (fuel : Nat) (m : DBModel) (acc : List String)
    (f : String) (v : Value) (p : Option String)
    (hf : acc.contains f = true) (hop : opSet.contains f = false)
    (hv : v.isDict = false) :
    conditionsParser fuel m acc (.dict [(f, v)]) p =
      conditionsParser fuel m acc (.dict [(f, .dict [("$eq", v)])]) p := by
  cases fuel with
  | zero => rfl
  | succ fuel =>
    simp only [conditionsParser, condParserStep, List.filter, hf, hop, opConds, fieldConds]
    cases v <;> simp_all [Value.isDict]

/-- Witness for C7 at `f = "f"`, `v = 5`. -/
theorem scalar_eq_shorthand_witness :
    conditionsParser 2 ⟨["f"]⟩ ["f"] (.dict [("f", .int 5)]) none =
      conditionsParser 2 ⟨["f"]⟩ ["f"] (.dict [("f", .dict [("$eq", .int 5)])]) none :=
  scalar_eq_shorthand 2 ⟨["f"]⟩ ["f"] "f" (.int 5) none rfl rfl rfl

/-- C8: a key that is neither a known operator token nor an allowed field is
silently dropped — extending a document with such an entry does not change
the result of compilation. -/
theorem unknown_keys_dropped (fuel : Nat) (m : DBModel) (acc : List String)
    (d : List (String × Value)) (k : String) (v : Value) (p : Option String)
    (h1 : opSet.contains k = false) (h2 : acc.contains k = false) :
    conditionsParser fuel m acc (.dict (d ++ [(k, v)])) p =
      conditionsParser fuel m acc (.dict d) p := by
  cases fuel with
  | zero => rfl
  | succ fuel =>
    simp only [conditionsParser, condParserStep, List.filter_append, List.filter, h1, h2,
      List.append_nil]

/-- Witness for C8: `{"f": 1, "unknown": 2}` with allowed set `{f}` compiles
like `{"f": 1}`. -/
theorem unknown_keys_dropped_witness :
    conditionsParser 2 ⟨["f"]⟩ ["f"] (.dict [("f", .int 1), ("unknown", .int 2)]) none =
      conditionsParser 2 ⟨["f"]⟩ ["f"] (.dict [("f", .int 1)]) none :=
  unknown_keys_dropped 2 ⟨["f"]⟩ ["f"] [("f", .int 1)] "unknown" (.int 2) none rfl rfl

/-- C3 (counterexample): a mix of `None` and non-`None` operator
contributions loses the non-`None` predicates.  In
`{"$or": [{"f": 1}], "$and": [{}]}` the `$or` key contributes a predicate
and the `$and` key contributes `None`, yet the whole compile returns
`None`, although the same document without the `$and` entry compiles to
the `$or` predicate. -/
theorem none_identity_counterexample :
    conditionsParser 4 ⟨["f"]⟩ ["f"]
        (.dict [("$or", .list [.dict [("f", .int 1)]]), ("$and", .list [.dict []])]) none =
      .ok .pynone ∧
    conditionsParser 4 ⟨["f"]⟩ ["f"]
        (.dict [("$or", .list [.dict [("f", .int 1)]])]) none =
      .ok (.query (.eq "f" (.v (.int 1)))) := ⟨rfl, rfl⟩

/-- C3 (amended): the pairwise AND-reduction that `_conditions_parser`
applies to the collected operator-derived conditions treats `None` as
annihilating, not as identity: over `None`-or-predicate contributions the
aggregate is `None` as soon as any contribution is `None`, and equals the
left AND-fold of the predicates when every contribution is a predicate. -/
theorem none_annihilates_aggregate :
    (∀ (c : Option QPred) (cs : List (Option QPred)),
      none ∈ c :: cs → reduceConds ((c :: cs).map condOfOpt) = .ok .pynone) ∧
    (∀ (p : QPred) (ps : List QPred),
      reduceConds ((p :: ps).map PyCond.query) =
        .ok (.query (ps.foldl QPred.and p))) := by
  constructor
  · intro c cs hmem
    rcases List.mem_cons.mp hmem with hc | hcs
    · simp [← hc, reduceConds, condOfOpt, List.map, reduceCombine_pynone]
    · cases c with
      | none => simp [reduceConds, condOfOpt, List.map, reduceCombine_pynone]
      | some p =>
        simp only [List.map, condOfOpt, reduceConds]
        exact reduceCombine_mem_none cs (.query p) (Or.inr ⟨p, rfl⟩) hcs
  · intro p ps
    simpa [reduceConds, List.map] using reduceCombine_all_query ps p

/-- Witness for the amended C3 at concrete condition lists. -/
theorem none_annihilates_aggregate_witness :
    reduceConds [.query (.eq "f" (.v (.int 1))), .pynone] = .ok .pynone ∧
    reduceConds [.query (.eq "f" (.v (.int 1))), .query (.eq "g" (.v (.int 2)))] =
      .ok (.query (.and (.eq "f" (.v (.int 1))) (.eq "g" (.v (.int 2))))) :=
  ⟨none_annihilates_aggregate.1 (some (.eq "f" (.v (.int 1)))) [none] (by simp),
   none_annihilates_aggregate.2 (.eq "f" (.v (.int 1))) [.eq "g" (.v (.int 2))]⟩

/-- C2 (code bug): `$nin` is listed in `op_validators` (so it is in the
operator vocabulary and its list check runs), but `_query_operators` has no
`$nin` entry.  With a list value the compile therefore raises
`KeyError('$nin')` from the table lookup instead of building the
membership-negation predicate; with a non-list value the validator fires
first and the documented `QueryError` is raised. -/
theorem nin_missing_from_operator_table :
    conditionsParser 2 ⟨["f"]⟩ ["f"]
        (.dict [("f", .dict [("$nin", .list [.int 1, .int 2])])]) none =
      .error (.keyError "$nin") ∧
    conditionsParser 2 ⟨["f"]⟩ ["f"]
        (.dict [("f", .dict [("$nin", .int 3)])]) none =
      .error (.queryError "$nin" (.int 3)) ∧
    opSet.contains "$nin" = true ∧
    (lookupQueryOp "$nin").isNone = true := ⟨rfl, rfl, rfl, rfl⟩

/-- C4 (code bug): a glue operator with a non-list value and a generic
operator with a wrongly-typed value do raise `QueryError` with the message
`"Invalid {operator} condition: {value!r}"`, but a glue list containing a
non-mapping element does not: `_glue_op_parser` never runs `validate_glue`
(which would reject it with an assertion), and the element reaches the
recursive `_conditions_parser`, which raises an `AttributeError` on
`.keys()` instead of the documented `QueryError`. -/
theorem glue_element_shape_not_queryerror :
    conditionsParser 2 ⟨["f"]⟩ [] (.dict [("$and", .int 3)]) none =
      .error (.queryError "$and" (.int 3)) ∧
    genMsg "$and" (.int 3) = "Invalid $and condition: 3" ∧
    conditionsParser 2 ⟨["f"]⟩ [] (.dict [("$and", .list [.int 3])]) none =
      .error (.attrError "keys") ∧
    validateGlue (.list [.int 3]) = .error .assertionError ∧
    conditionsParser 2 ⟨["f"]⟩ ["f"] (.dict [("f", .dict [("$in", .int 3)])]) none =
      .error (.queryError "$in" (.int 3)) ∧
    genMsg "$in" (.int 3) = "Invalid $in condition: 3" :=
  ⟨rfl, rfl, rfl, rfl, rfl, rfl⟩

/-- C9: decoding the wire literal `{"type": "point", "coordinates": [1, 2]}`
and using it in a `$geo.equals` condition produces exactly the predicate
built from the directly constructed point geometry with coordinates (1, 2);
the `type` key is matched case-insensitively, and nested coordinate lists
are converted to tuples. -/
theorem geo_point_roundtrip :
    validateGeo (.dict [("type", .str "point"), ("coordinates", .list [.int 1, .int 2])]) =
      .ok (.point [.int 1, .int 2]) ∧
    conditionsParser 2 ⟨["geo"]⟩ ["geo"]
        (.dict [("geo", .dict [("$geo.equals",
          .dict [("type", .str "point"), ("coordinates", .list [.int 1, .int 2])])])]) none =
      .ok (.query (.stEquals "geo" (.geom (.point [.int 1, .int 2])))) ∧
    validateGeo (.dict [("type", .str "Point"), ("coordinates", .list [.int 1, .int 2])]) =
      .ok (.point [.int 1, .int 2]) ∧
    validateGeo (.dict [("type", .str "POINT"), ("coordinates", .list [.int 1, .int 2])]) =
      .ok (.point [.int 1, .int 2]) ∧
    tuplifyList [.list [.int 1, .int 2], .list [.int 2, .int 2]] =
      [.tup [.int 1, .int 2], .tup [.int 2, .int 2]] := ⟨rfl, rfl, rfl, rfl, rfl⟩

/-- C10: a `$not` document whose inner document compiles to no predicate
makes `_dict_op_parser` apply `operator.inv` to `None`: compilation from the
public `parse_conditions` entry point raises a `TypeError`, which is
neither a returned predicate nor a `QueryError` — an error outside the
documented taxonomy. -/
theorem not_of_empty_inner_typeerror (fuel : Nat) (m : DBModel)
    (acc : List String) (dbset : DBSet) (d : Value)
    (hd : d.isDict = true) (hacc : acc.contains "$not" = false)
    (h : conditionsParser fuel m acc d (some "$not") = .ok .pynone) :
    parseConditions (fuel + 1) m dbset (.dict [("$not", d)]) acc =
      .error (.typeError "bad operand type for unary ~: \x27NoneType\x27") ∧
    ∀ op value, Exc.typeError "bad operand type for unary ~: \x27NoneType\x27" ≠
      .queryError op value := by
  constructor
  · obtain ⟨entries, rfl⟩ : ∃ entries, d = .dict entries := by
      cases d <;> simp_all [Value.isDict]
    simp only [parseConditions, conditionsParser, condParserStep, List.filter, opSet,
      List.contains, opConds, opParserDispatch, dictOpParser, pyInv, hacc, h]
    simp
  · intro op value hcontra
    cases hcontra

/-- Witness for C10: `{"$not": {}}` — the empty inner document compiles to
no predicate and the compile raises the `TypeError`. -/
theorem not_of_empty_inner_typeerror_witness :
    parseConditions 2 ⟨[]⟩ (.base 0) (.dict [("$not", .dict [])]) [] =
      .error (.typeError "bad operand type for unary ~: \x27NoneType\x27") :=
  (not_of_empty_inner_typeerror 1 ⟨[]⟩ [] (.base 0) (.dict []) rfl rfl rfl).1

/-- C5: the request-time filter stage.  With an absent or empty filter
parameter, or an empty accepted-field set, the dataset handle passes
through unchanged; a failed JSON decode or a non-mapping decode yields a
400 error keyed on the parameter name with value `"invalid value"`; a
`QueryError` from compilation yields a 400 error keyed on the parameter
name carrying the error's generated message. -/
theorem pipe_filter_stage (fuel : Nat) (m : DBModel) (cfg : PipeConfig)
    (decode : String → Option Value) (dbset : DBSet) :
    (∀ raw, (raw = none ∨ raw = some "" ∨ cfg.queryableFields = []) →
      pipeRequest fuel m cfg raw decode dbset = .forwarded dbset) ∧
    (∀ s, s ≠ "" → cfg.queryableFields ≠ [] →
      (decode s = none ∨ ∃ v, decode s = some v ∧ v.isDict = false) →
      pipeRequest fuel m cfg (some s) decode dbset =
        .badRequest cfg.queryParam "invalid value") ∧
    (∀ s v op value, s ≠ "" → cfg.queryableFields ≠ [] →
      decode s = some v → v.isDict = true →
      conditionsParser fuel m cfg.queryableFields v none = .error (.queryError op value) →
      pipeRequest fuel m cfg (some s) decode dbset =
        .badRequest cfg.queryParam (genMsg op value)) := by
  refine ⟨?_, ?_, ?_⟩
  · intro raw h
    rcases h with h | h | h
    · subst h; simp [pipeRequest, truthyParam]
    · subst h; simp [pipeRequest, truthyParam]
    · simp [pipeRequest, h]
  · intro s hs hf hdec
    have ht : truthyParam (some s) = true := by simp [truthyParam, hs]
    have hfe : cfg.queryableFields.isEmpty = false := by
      simpa [List.isEmpty_iff] using hf
    rcases hdec with h | ⟨v, hv, hvd⟩
    · simp [pipeRequest, ht, hfe, parseWhereParam, hs, h]
    · simp [pipeRequest, ht, hfe, parseWhereParam, hs, hv, hvd]
  · intro s v op value hs hf hv hvd hq
    have ht : truthyParam (some s) = true := by simp [truthyParam, hs]
    have hfe : cfg.queryableFields.isEmpty = false := by
      simpa [List.isEmpty_iff] using hf
    simp [pipeRequest, ht, hfe, parseWhereParam, hs, hv, hvd, parseConditions, hq]

/-- Witness for C5: an absent parameter passes through; an undecodable
parameter and a `QueryError`-raising document produce the two 400 shapes. -/
theorem pipe_filter_stage_witness :
    pipeRequest 2 ⟨["f"]⟩ ⟨"where", ["f"]⟩ none (fun _ => none) (.base 0) =
      .forwarded (.base 0) ∧
    pipeRequest 2 ⟨["f"]⟩ ⟨"where", ["f"]⟩ (some "x") (fun _ => none) (.base 0) =
      .badRequest "where" "invalid value" ∧
    pipeRequest 2 ⟨["f"]⟩ ⟨"where", ["f"]⟩ (some "x")
        (fun _ => some (.dict [("f", .dict [("$in", .int 3)])])) (.base 0) =
      .badRequest "where" (genMsg "$in" (.int 3)) :=
  ⟨(pipe_filter_stage 2 ⟨["f"]⟩ ⟨"where", ["f"]⟩ (fun _ => none) (.base 0)).1
      none (Or.inl rfl),
   (pipe_filter_stage 2 ⟨["f"]⟩ ⟨"where", ["f"]⟩ (fun _ => none) (.base 0)).2.1
      "x" (by decide) (by decide) (Or.inl rfl),
   (pipe_filter_stage 2 ⟨["f"]⟩ ⟨"where", ["f"]⟩
        (fun _ => some (.dict [("f", .dict [("$in", .int 3)])])) (.base 0)).2.2
      "x" (.dict [("f", .dict [("$in", .int 3)])]) "$in" (.int 3)
      (by decide) (by decide) rfl rfl rfl⟩

/-- C6 (counterexample): a present, well-formed filter document that
compiles to no predicate (here the empty document) does not leave the
dataset handle untouched: the pipe forwards `dbset.where(None)` — a new
`where` application carrying the `None` condition — rather than the
inbound handle itself. -/
theorem where_none_counterexample :
    pipeRequest 2 ⟨["f"]⟩ ⟨"where", ["f"]⟩ (some "x")
        (fun _ => some (.dict [])) (.base 0) =
      .forwarded (.whereQ (.base 0) .pynone) ∧
    DBSet.whereQ (.base 0) .pynone ≠ DBSet.base 0 :=
  ⟨rfl, fun h => DBSet.noConfusion h⟩

/-- C6 (amended): when compilation of a present, well-formed filter
document yields no predicate (`None`), the pipe still calls `.where` on the
inbound dataset handle, passing the `None` condition, and forwards that
result downstream — the handle is not forwarded unmodified. -/
theorem where_none_attached (fuel : Nat) (m : DBModel) (cfg : PipeConfig)
    (decode : String → Option Value) (dbset : DBSet) (s : String) (v : Value)
    (hs : s ≠ "") (hf : cfg.queryableFields ≠ []) (hv : decode s = some v)
    (hvd : v.isDict = true)
    (h : conditionsParser fuel m cfg.queryableFields v none = .ok .pynone) :
    pipeRequest fuel m cfg (some s) decode dbset =
      .forwarded (.whereQ dbset .pynone) := by
  have ht : truthyParam (some s) = true := by simp [truthyParam, hs]
  have hfe : cfg.queryableFields.isEmpty = false := by
    simpa [List.isEmpty_iff] using hf
  simp [pipeRequest, ht, hfe, parseWhereParam, hs, hv, hvd, parseConditions, h]

/-- Witness for the amended C6 at the empty filter document. -/
theorem where_none_attached_witness :
    pipeRequest 1 ⟨["f"]⟩ ⟨"where", ["f"]⟩ (some "y")
        (fun _ => some (.dict [])) (.base 7) =
      .forwarded (.whereQ (.base 7) .pynone) :=
  where_none_attached 1 ⟨["f"]⟩ ⟨"where", ["f"]⟩ (fun _ => some (.dict []))
    (.base 7) "y" (.dict []) (by decide) (by decide) rfl rfl rfl
